import Mathlib

/-!
Verification of the authentication and session subsystem of the protime-mcp
server (src/src/index.ts and src/src/middleware/auth.ts), as a shallow
embedding in Lean.  Firestore document collections are modelled as partial
maps from document id (a string) to document data; timestamps are
milliseconds since the epoch as natural numbers; library cryptography
(SHA-256, JWT signing, token verification) and the external user store are
abstracted as function parameters of the embedded operations, so every
theorem quantifies over them.
-/

set_option autoImplicit false

namespace ProtimeMcp

universe u

/-- A Firestore-style collection: partial map from document id to data. -/
def DocMap (α : Type u) : Type u := String → Option α

/-- The empty collection. -/
def DocMap.empty {α : Type u} : DocMap α := fun _ => none

/-- Write (create or overwrite) the document at key `k`. -/
def DocMap.set {α : Type u} (m : DocMap α) (k : String) (v : α) : DocMap α :=
  fun k2 => if k2 = k then some v else m k2

/-- Delete the document at key `k`. -/
def DocMap.del {α : Type u} (m : DocMap α) (k : String) : DocMap α :=
  fun k2 => if k2 = k then none else m k2

/-- Ten minutes in milliseconds: the authorization-code lifetime
(src/src/index.ts line 332). -/
def tenMinutesMs : Nat := 10 * 60 * 1000

/-- Fifteen minutes in milliseconds: the pending-authorization TTL used by
the cleanup interval (src/src/index.ts lines 226-233). -/
def fifteenMinutesMs : Nat := 15 * 60 * 1000

/-- Thirty days in milliseconds: the refresh-token lifetime
(src/src/index.ts lines 446 and 525). -/
def thirtyDaysMs : Nat := 30 * 24 * 60 * 60 * 1000

/-- A document of the `oauthCodes` collection (src/src/index.ts
lines 334-344): a single-use authorization code. -/
structure OAuthCodeData where
  userId : String
  codeChallenge : String
  codeChallengeMethod : String
  redirectUri : String
  scope : String
  clientId : String
  expiresAt : Nat
  used : Bool
  usedAt : Option Nat
  createdAt : Nat
deriving Repr, DecidableEq

/-- A document of the `oauthRefreshTokens` collection (src/src/index.ts
lines 448-455 and 527-535). -/
structure RefreshTokenData where
  userId : String
  scope : String
  clientId : String
  expiresAt : Nat
  revoked : Bool
  revokedAt : Option Nat
  createdAt : Nat
  previousToken : Option String
deriving Repr, DecidableEq

/-- An entry of the in-memory `pendingAuthRequests` map (src/src/index.ts
lines 216-223), keyed by the OAuth `state` parameter. -/
structure PendingAuth where
  codeChallenge : String
  codeChallengeMethod : String
  redirectUri : String
  scope : String
  clientId : String
  createdAt : Nat
deriving Repr, DecidableEq

/-- The persisted OAuth state: both Firestore collections used by the token
endpoint. -/
structure OAuthState where
  oauthCodes : DocMap OAuthCodeData
  oauthRefreshTokens : DocMap RefreshTokenData

/-- Outcome of a POST /auth/token request (src/src/index.ts lines 366-559),
tagged by the `error` field of the JSON body, or carrying the fields of the
200 response. -/
inductive TokenResult where
  | invalidRequest (desc : String)
  | invalidGrant (desc : String)
  | unsupportedGrantType (grantType : String)
  | success (accessToken tokenType : String) (expiresIn : Nat)
      (refreshToken scope : String)
deriving Repr, DecidableEq

/-- True exactly on the `invalid_grant` outcome. -/
def TokenResult.isInvalidGrant : TokenResult → Bool
  | .invalidGrant _ => true
  | _ => false

/-- True exactly on the 200 outcome. -/
def TokenResult.isSuccess : TokenResult → Bool
  | .success _ _ _ _ _ => true
  | _ => false

/-- The redirect-uri check of the authorization_code grant
(src/src/index.ts line 416): `redirect_uri && redirect_uri !==
codeData.redirectUri`.  A missing or empty (falsy) supplied value skips the
check. -/
def redirectUriMismatch (supplied : Option String) (stored : String) : Bool :=
  match supplied with
  | none => false
  | some r => r != "" && r != stored

/-- The authorization_code grant of POST /auth/token (src/src/index.ts
lines 371-469).  `sha256base64url` abstracts
`createHash(sha256).update(v).digest(base64url)`, `mkJWT` abstracts
`createJWT`, `freshRefreshToken` is the `randomUUID()` drawn on the success
path, and `now` is the current time in milliseconds.  Returns the response
and the updated stores. -/
def exchangeCode (sha256base64url mkJWT : String → String)
    (freshRefreshToken : String) (now : Nat) (σ : OAuthState)
    (code codeVerifier : String) (redirectUri : Option String) :
    TokenResult × OAuthState :=
  if code = "" ∨ codeVerifier = "" then
    (.invalidRequest "Missing required parameters: code, code_verifier", σ)
  else
    match σ.oauthCodes code with
    | none => (.invalidGrant "Invalid authorization code", σ)
    | some codeData =>
      if codeData.used then
        (.invalidGrant "Authorization code has already been used", σ)
      else if codeData.expiresAt < now then
        (.invalidGrant "Authorization code has expired", σ)
      else if redirectUriMismatch redirectUri codeData.redirectUri then
        (.invalidGrant "Redirect URI mismatch", σ)
      else if sha256base64url codeVerifier != codeData.codeChallenge then
        (.invalidGrant "PKCE code_verifier validation failed", σ)
      else
        let usedCode := { codeData with used := true, usedAt := some now }
        let newRT : RefreshTokenData :=
          { userId := codeData.userId, scope := codeData.scope,
            clientId := codeData.clientId, expiresAt := now + thirtyDaysMs,
            revoked := false, revokedAt := none, createdAt := now,
            previousToken := none }
        (.success (mkJWT codeData.userId) "Bearer" 604800 freshRefreshToken
            codeData.scope,
         { oauthCodes := σ.oauthCodes.set code usedCode,
           oauthRefreshTokens :=
             σ.oauthRefreshTokens.set freshRefreshToken newRT })

/-- The refresh_token grant of POST /auth/token (src/src/index.ts
lines 472-549).  `freshRefreshToken` is the `randomUUID()` drawn for the
rotated-in token. -/
def refreshGrant (mkJWT : String → String) (freshRefreshToken : String)
    (now : Nat) (σ : OAuthState) (refreshToken : String) :
    TokenResult × OAuthState :=
  if refreshToken = "" then
    (.invalidRequest "Missing required parameter: refresh_token", σ)
  else
    match σ.oauthRefreshTokens refreshToken with
    | none => (.invalidGrant "Invalid refresh token", σ)
    | some tokenData =>
      if tokenData.revoked then
        (.invalidGrant "Refresh token has been revoked", σ)
      else if tokenData.expiresAt < now then
        (.invalidGrant "Refresh token has expired", σ)
      else
        let revokedOld :=
          { tokenData with revoked := true, revokedAt := some now }
        let rotated : RefreshTokenData :=
          { userId := tokenData.userId, scope := tokenData.scope,
            clientId := tokenData.clientId, expiresAt := now + thirtyDaysMs,
            revoked := false, revokedAt := none, createdAt := now,
            previousToken := some refreshToken }
        let tokens2 : DocMap RefreshTokenData :=
          (σ.oauthRefreshTokens.set refreshToken revokedOld).set
            freshRefreshToken rotated
        (.success (mkJWT tokenData.userId) "Bearer" 604800 freshRefreshToken
            tokenData.scope,
         { σ with oauthRefreshTokens := tokens2 })

/-- The batch revocation of POST /auth/logout (src/src/index.ts
lines 574-602): every unrevoked refresh token of `userId` is marked
revoked. -/
def revokeAll (now : Nat) (tokens : DocMap RefreshTokenData)
    (userId : String) : DocMap RefreshTokenData :=
  fun k =>
    match tokens k with
    | none => none
    | some d =>
      if d.userId = userId ∧ d.revoked = false then
        some { d with revoked := true, revokedAt := some now }
      else some d

/-- Outcome of GET /auth/callback (src/src/index.ts lines 285-363). -/
inductive CallbackResult where
  | invalidRequest (desc : String)
  | invalidGrant (desc : String)
  | redirect (redirectUri code state : String)
deriving Repr, DecidableEq

/-- GET /auth/callback (src/src/index.ts lines 285-363).  `resolveGrant`
abstracts the resolution of the external grant to a user id (Firebase
verifyIdToken with fall-back to a direct Firestore user lookup, lines
310-328); `freshCode` is the `randomUUID()` minted as the authorization
code.  Returns the response, the updated pending map and the updated codes
collection.  Note: the pending entry is used as long as it is present; its
`createdAt` is not compared against the TTL here. -/
def completeAuthorization (resolveGrant : String → Option String)
    (freshCode : String) (now : Nat)
    (pending : DocMap PendingAuth) (codes : DocMap OAuthCodeData)
    (code state : String) :
    CallbackResult × DocMap PendingAuth × DocMap OAuthCodeData :=
  if code = "" ∨ state = "" then
    (.invalidRequest "Missing required parameters: code, state",
     pending, codes)
  else
    match pending state with
    | none =>
      (.invalidRequest "Unknown or expired state parameter", pending, codes)
    | some p =>
      match resolveGrant code with
      | none => (.invalidGrant "Invalid authorization code", pending, codes)
      | some userId =>
        let newCode : OAuthCodeData :=
          { userId := userId, codeChallenge := p.codeChallenge,
            codeChallengeMethod := p.codeChallengeMethod,
            redirectUri := p.redirectUri, scope := p.scope,
            clientId := p.clientId, expiresAt := now + tenMinutesMs,
            used := false, usedAt := none, createdAt := now }
        (.redirect p.redirectUri freshCode state,
         pending.del state, codes.set freshCode newCode)

/-- The cleanup interval body for pending auth requests (src/src/index.ts
lines 226-233): delete every entry with `createdAt < now - 15 min`. -/
def cleanupSweep (now : Nat) (pending : DocMap PendingAuth) :
    DocMap PendingAuth :=
  fun k =>
    match pending k with
    | none => none
    | some v => if v.createdAt < now - fifteenMinutesMs then none else some v

/-- Outcome of the shared bearer-token verifier. -/
inductive AuthResult where
  | ok (userId : String) (createdNewUser : Bool)
  | authError (message : String)
deriving Repr, DecidableEq

/-- The shared bearer-token verifier `authenticateToken` (src/src/index.ts
lines 33-92).  `jwtVerify` abstracts `jwt.verify` returning the decoded
userId, `userExists` abstracts the Firestore users-document existence
check, `firebaseVerify` abstracts `auth.verifyIdToken` returning the uid.
Faithful control-flow point: the AuthenticationError thrown at line 40 when
the JWT decodes but the user document is missing is raised inside the same
try block as `jwt.verify`, so the catch at line 53 swallows it and control
falls through to the Firebase path — it never reaches the caller. -/
def authenticateToken (jwtVerify : String → Option String)
    (userExists : String → Bool) (firebaseVerify : String → Option String)
    (token : String) : AuthResult :=
  let firebasePath : AuthResult :=
    match firebaseVerify token with
    | some uid => if userExists uid then .ok uid false else .ok uid true
    | none => .authError "Invalid authentication token"
  match jwtVerify token with
  | some userId =>
    if userExists userId then .ok userId false else firebasePath
  | none => firebasePath

/-- Response of an /mcp endpoint, tagged by the JSON-RPC error emitted or
by the request having been handed to a transport. -/
inductive McpResponse where
  | handledExisting (sessionId : String)
  | authRequired
  | invalidToken
  | invalidSession
  | handledNewSession (sessionId userId : String)
deriving Repr, DecidableEq

/-- First `n` characters of a string (used to model
`authHeader.startsWith` on the Bearer prefix). -/
def takeChars (n : Nat) (s : String) : String := String.mk (s.data.take n)

/-- All but the first `n` characters of a string (used to model
`authHeader.split(Bearer )[1]`, which yields everything after the 7-char
prefix). -/
def dropChars (n : Nat) (s : String) : String := String.mk (s.data.drop n)

/-- POST /mcp (src/src/index.ts lines 642-710).  The session table maps
session id to the bound user id (the transport handle is irrelevant here).
`verifyToken` abstracts `authenticateToken`, `freshSessionId` the
`randomUUID()` drawn when a session is created.  Faithful control-flow
point: a header-supplied session id that is NOT in the table does not
short-circuit — the request proceeds to the new-session authentication
path (lines 658-709). -/
def postMcp (verifyToken : String → Option String) (freshSessionId : String)
    (sessions : DocMap String)
    (mcpSessionHeader authorizationHeader : Option String) :
    McpResponse × DocMap String :=
  let sid := mcpSessionHeader.getD ""
  if sid != "" && (sessions sid).isSome then
    (.handledExisting sid, sessions)
  else
    match authorizationHeader with
    | none => (.authRequired, sessions)
    | some h =>
      if takeChars 7 h = "Bearer " then
        match verifyToken (dropChars 7 h) with
        | none => (.invalidToken, sessions)
        | some userId =>
          (.handledNewSession freshSessionId userId,
           sessions.set freshSessionId userId)
      else (.authRequired, sessions)

/-- GET /mcp (src/src/index.ts lines 713-727): requires a known session id,
else the 400 invalid-or-missing-session error. -/
def getMcp (sessions : DocMap String) (mcpSessionHeader : Option String) :
    McpResponse :=
  let sid := mcpSessionHeader.getD ""
  if sid != "" && (sessions sid).isSome then .handledExisting sid
  else .invalidSession

/-- DELETE /mcp (src/src/index.ts lines 730-751): requires a known session
id, else the 400 invalid-or-missing-session error; on success the session
is removed from the table. -/
def deleteMcp (sessions : DocMap String) (mcpSessionHeader : Option String) :
    McpResponse × DocMap String :=
  let sid := mcpSessionHeader.getD ""
  if sid != "" && (sessions sid).isSome then
    (.handledExisting sid, sessions.del sid)
  else (.invalidSession, sessions)

/-- Number of character comparisons performed by a short-circuit string
equality scan: the standard cost model of the early-exit comparison that
the source performs at src/src/index.ts line 429 via `!==` on the computed
and the stored challenge (it stops at the first differing character). -/
def earlyExitEqCost : List Char → List Char → Nat
  | [], [] => 0
  | [], _ :: _ => 0
  | _ :: _, [] => 0
  | a :: as, b :: bs => if a = b then 1 + earlyExitEqCost as bs else 1

/-- Used-flag monotonicity between two snapshots of the `oauthCodes`
collection: every document whose `used` flag is set stays present with the
flag set. -/
def UsedMonotone (before after : DocMap OAuthCodeData) : Prop :=
  ∀ k d, before k = some d → d.used = true →
    ∃ d2, after k = some d2 ∧ d2.used = true

/-- Revoked-flag monotonicity between two snapshots of the
`oauthRefreshTokens` collection. -/
def RevokedMonotone (before after : DocMap RefreshTokenData) : Prop :=
  ∀ k d, before k = some d → d.revoked = true →
    ∃ d2, after k = some d2 ∧ d2.revoked = true

/-! Basic lemmas about the document-map operations. -/

theorem DocMap.get_set_same {α : Type u} (m : DocMap α) (k : String)
    (v : α) : m.set k v k = some v := by
  simp [DocMap.set]

theorem DocMap.get_set_ne {α : Type u} (m : DocMap α) {k k2 : String}
    (v : α) (h : k2 ≠ k) : m.set k v k2 = m k2 := by
  simp [DocMap.set, h]

/-! Branch lemmas for the embedded operations. -/

/-- On a request whose stored code is already marked used, the
authorization_code grant answers the reuse error without touching state. -/
theorem exchangeCode_of_used (sha mkJWT : String → String) (fresh : String)
    (now : Nat) (σ : OAuthState) (code verifier : String)
    (ru : Option String) (d : OAuthCodeData) (hc : code ≠ "")
    (hv : verifier ≠ "") (hlook : σ.oauthCodes code = some d)
    (hused : d.used = true) :
    exchangeCode sha mkJWT fresh now σ code verifier ru =
      (.invalidGrant "Authorization code has already been used", σ) := by
  unfold exchangeCode
  rw [if_neg (not_or.mpr ⟨hc, hv⟩), hlook]
  simp [hused]

/-- On a request whose stored code is unused but past `expiresAt`, the
authorization_code grant answers the expiry error without touching
state. -/
theorem exchangeCode_of_expired (sha mkJWT : String → String)
    (fresh : String) (now : Nat) (σ : OAuthState) (code verifier : String)
    (ru : Option String) (d : OAuthCodeData) (hc : code ≠ "")
    (hv : verifier ≠ "") (hlook : σ.oauthCodes code = some d)
    (hused : d.used = false) (hexp : d.expiresAt < now) :
    exchangeCode sha mkJWT fresh now σ code verifier ru =
      (.invalidGrant "Authorization code has expired", σ) := by
  unfold exchangeCode
  rw [if_neg (not_or.mpr ⟨hc, hv⟩), hlook]
  simp [hused, hexp]

/-- The full success equation of the authorization_code grant. -/
theorem exchangeCode_success_eq (sha mkJWT : String → String)
    (fresh : String) (now : Nat) (σ : OAuthState) (code verifier : String)
    (ru : Option String) (d : OAuthCodeData) (hc : code ≠ "")
    (hv : verifier ≠ "") (hlook : σ.oauthCodes code = some d)
    (hused : d.used = false) (hexp : ¬ d.expiresAt < now)
    (hru : redirectUriMismatch ru d.redirectUri = false)
    (hpkce : sha verifier = d.codeChallenge) :
    exchangeCode sha mkJWT fresh now σ code verifier ru =
      (.success (mkJWT d.userId) "Bearer" 604800 fresh d.scope,
       { oauthCodes :=
           σ.oauthCodes.set code { d with used := true, usedAt := some now },
         oauthRefreshTokens := σ.oauthRefreshTokens.set fresh
           { userId := d.userId, scope := d.scope, clientId := d.clientId,
             expiresAt := now + thirtyDaysMs, revoked := false,
             revokedAt := none, createdAt := now,
             previousToken := none } }) := by
  unfold exchangeCode
  rw [if_neg (not_or.mpr ⟨hc, hv⟩), hlook]
  simp [hused, hexp, hru, hpkce]

/-- Every non-success outcome of the authorization_code grant leaves the
state untouched. -/
theorem exchangeCode_success_or_unchanged (sha mkJWT : String → String)
    (fresh : String) (now : Nat) (σ : OAuthState) (code verifier : String)
    (ru : Option String) :
    (exchangeCode sha mkJWT fresh now σ code verifier ru).1.isSuccess = true
    ∨ (exchangeCode sha mkJWT fresh now σ code verifier ru).2 = σ := by
  unfold exchangeCode
  repeat' split
  all_goals simp [TokenResult.isSuccess]

/-- The full success equation of the refresh_token grant: the presented
token is overwritten as revoked, then the rotated-in token is written. -/
theorem refreshGrant_success_eq (mkJWT : String → String) (fresh : String)
    (now : Nat) (σ : OAuthState) (t : String) (d : RefreshTokenData)
    (ht : t ≠ "") (hlook : σ.oauthRefreshTokens t = some d)
    (hrev : d.revoked = false) (hexp : ¬ d.expiresAt < now) :
    refreshGrant mkJWT fresh now σ t =
      (.success (mkJWT d.userId) "Bearer" 604800 fresh d.scope,
       { σ with oauthRefreshTokens :=
           ((σ.oauthRefreshTokens.set t
               { d with revoked := true, revokedAt := some now }).set fresh
             ({ userId := d.userId, scope := d.scope, clientId := d.clientId,
                expiresAt := now + thirtyDaysMs, revoked := false,
                revokedAt := none, createdAt := now,
                previousToken := some t })) }) := by
  unfold refreshGrant
  rw [if_neg ht, hlook]
  simp [hrev, hexp]

/-- A revoked presented token makes the refresh_token grant answer the
revocation error without touching state. -/
theorem refreshGrant_of_revoked (mkJWT : String → String) (fresh : String)
    (now : Nat) (σ : OAuthState) (t : String) (d : RefreshTokenData)
    (ht : t ≠ "") (hlook : σ.oauthRefreshTokens t = some d)
    (hrev : d.revoked = true) :
    refreshGrant mkJWT fresh now σ t =
      (.invalidGrant "Refresh token has been revoked", σ) := by
  unfold refreshGrant
  rw [if_neg ht, hlook]
  simp [hrev]

/-- The refresh_token grant either leaves the token collection unchanged,
or the presented token was present and the collection becomes the two-step
overwrite of the rotation. -/
theorem refreshGrant_tokens_cases (mkJWT : String → String) (fresh : String)
    (now : Nat) (σ : OAuthState) (t : String) :
    (refreshGrant mkJWT fresh now σ t).2.oauthRefreshTokens
      = σ.oauthRefreshTokens
    ∨ ∃ old : RefreshTokenData, σ.oauthRefreshTokens t = some old ∧
        (refreshGrant mkJWT fresh now σ t).2.oauthRefreshTokens
          = (σ.oauthRefreshTokens.set t
               { old with revoked := true, revokedAt := some now }).set fresh
              { userId := old.userId, scope := old.scope,
                clientId := old.clientId, expiresAt := now + thirtyDaysMs,
                revoked := false, revokedAt := none, createdAt := now,
                previousToken := some t } := by
  unfold refreshGrant
  repeat' split
  all_goals simp_all

/-- The callback either leaves the codes collection unchanged, or writes
one fresh code whose `used` flag is false. -/
theorem completeAuthorization_codes_cases (resolveGrant : String → Option String)
    (freshCode : String) (now : Nat) (pending : DocMap PendingAuth)
    (codes : DocMap OAuthCodeData) (grant state : String) :
    (completeAuthorization resolveGrant freshCode now pending codes
        grant state).2.2 = codes
    ∨ ∃ nc : OAuthCodeData, nc.used = false ∧
        (completeAuthorization resolveGrant freshCode now pending codes
            grant state).2.2 = codes.set freshCode nc := by
  unfold completeAuthorization
  repeat' split
  · exact Or.inl rfl
  · exact Or.inl rfl
  · exact Or.inl rfl
  · exact Or.inr ⟨_, rfl, rfl⟩

/-- The codes collection of the authorization_code grant is either
unchanged or an overwrite of the looked-up code with its `used` flag set. -/
theorem exchangeCode_codes_cases (sha mkJWT : String → String)
    (fresh : String) (now : Nat) (σ : OAuthState) (code verifier : String)
    (ru : Option String) :
    (exchangeCode sha mkJWT fresh now σ code verifier ru).2.oauthCodes
      = σ.oauthCodes
    ∨ ∃ nc : OAuthCodeData, nc.used = true ∧
        (exchangeCode sha mkJWT fresh now σ code verifier ru).2.oauthCodes
          = σ.oauthCodes.set code nc := by
  unfold exchangeCode
  repeat' split
  all_goals first
    | exact Or.inl rfl
    | exact Or.inr ⟨_, rfl, rfl⟩

/-- The refresh-token collection of the authorization_code grant is either
unchanged or extended at the freshly drawn key. -/
theorem exchangeCode_tokens_cases (sha mkJWT : String → String)
    (fresh : String) (now : Nat) (σ : OAuthState) (code verifier : String)
    (ru : Option String) :
    (exchangeCode sha mkJWT fresh now σ code verifier ru).2.oauthRefreshTokens
      = σ.oauthRefreshTokens
    ∨ ∃ nt : RefreshTokenData,
        (exchangeCode sha mkJWT fresh now σ code verifier ru).2.oauthRefreshTokens
          = σ.oauthRefreshTokens.set fresh nt := by
  unfold exchangeCode
  repeat' split
  all_goals first
    | exact Or.inl rfl
    | exact Or.inr ⟨_, rfl⟩

/-! Monotonicity helper lemmas. -/

theorem usedMonotone_refl (m : DocMap OAuthCodeData) : UsedMonotone m m :=
  fun _ d hk hd => ⟨d, hk, hd⟩

theorem revokedMonotone_refl (m : DocMap RefreshTokenData) :
    RevokedMonotone m m :=
  fun _ d hk hd => ⟨d, hk, hd⟩

theorem revokedMonotone_trans {a b c : DocMap RefreshTokenData}
    (h1 : RevokedMonotone a b) (h2 : RevokedMonotone b c) :
    RevokedMonotone a c := by
  intro k d hk hd
  obtain ⟨d2, hk2, hd2⟩ := h1 k d hk hd
  exact h2 k d2 hk2 hd2

/-- Writing at a key that held no document preserves used-flag
monotonicity whatever is written. -/
theorem usedMonotone_set_of_none (codes : DocMap OAuthCodeData)
    (k : String) (nc : OAuthCodeData) (h : codes k = none) :
    UsedMonotone codes (codes.set k nc) := by
  intro k2 d hk2 hd
  refine ⟨d, ?_, hd⟩
  have hne : k2 ≠ k := by
    intro he; rw [he, h] at hk2; cases hk2
  rw [DocMap.get_set_ne codes nc hne]
  exact hk2

/-- Writing a document whose `used` flag is set preserves used-flag
monotonicity at any key. -/
theorem usedMonotone_set_of_used (codes : DocMap OAuthCodeData)
    (k : String) (nc : OAuthCodeData) (h : nc.used = true) :
    UsedMonotone codes (codes.set k nc) := by
  intro k2 d hk2 hd
  by_cases he : k2 = k
  · subst he
    exact ⟨nc, DocMap.get_set_same codes k2 nc, h⟩
  · exact ⟨d, (DocMap.get_set_ne codes nc he).trans hk2, hd⟩

/-- Writing at a key that held no document preserves revoked-flag
monotonicity whatever is written. -/
theorem revokedMonotone_set_of_none (tokens : DocMap RefreshTokenData)
    (k : String) (nt : RefreshTokenData) (h : tokens k = none) :
    RevokedMonotone tokens (tokens.set k nt) := by
  intro k2 d hk2 hd
  refine ⟨d, ?_, hd⟩
  have hne : k2 ≠ k := by
    intro he; rw [he, h] at hk2; cases hk2
  rw [DocMap.get_set_ne tokens nt hne]
  exact hk2

/-- Writing a document whose `revoked` flag is set preserves revoked-flag
monotonicity at any key. -/
theorem revokedMonotone_set_of_revoked (tokens : DocMap RefreshTokenData)
    (k : String) (nt : RefreshTokenData) (h : nt.revoked = true) :
    RevokedMonotone tokens (tokens.set k nt) := by
  intro k2 d hk2 hd
  by_cases he : k2 = k
  · subst he
    exact ⟨nt, DocMap.get_set_same tokens k2 nt, h⟩
  · exact ⟨d, (DocMap.get_set_ne tokens nt he).trans hk2, hd⟩

/-! Claim theorems. -/

/-- C1 (counterexample): the claim that every /mcp request carrying an
unknown session identifier is answered with the invalid-session error is
false for POST /mcp: with no bearer header the response is the
authentication-required error, and with a verifiable bearer header a brand
new session is silently created. -/
theorem c1_post_unknown_session_not_invalid_session :
    (postMcp (fun _ => none) "fresh-id" DocMap.empty
        (some "unknown-session") none).1 = McpResponse.authRequired
    ∧ (postMcp (fun _ => some "u1") "fresh-id" DocMap.empty
        (some "unknown-session") (some "Bearer tok")).1
        = McpResponse.handledNewSession "fresh-id" "u1"
    ∧ (postMcp (fun _ => some "u1") "fresh-id" DocMap.empty
        (some "unknown-session") (some "Bearer tok")).2 "fresh-id"
        = some "u1" :=
  ⟨by decide, by decide, by decide⟩

/-- C1 (amended): an unknown session identifier yields the invalid-session
error on GET /mcp and DELETE /mcp only; on POST /mcp it instead falls
through to the new-session path, which answers authentication-required when
the bearer header is absent or lacks the Bearer prefix, answers the
invalid-token authentication error when the carried token fails
verification, silently creates a new session when the token verifies, and
in no case answers the invalid-session error. -/
theorem c1_unknown_session_behaviour (sessions : DocMap String)
    (sid : String) (_hsid : sid ≠ "") (hmiss : sessions sid = none) :
    getMcp sessions (some sid) = McpResponse.invalidSession
    ∧ (deleteMcp sessions (some sid)).1 = McpResponse.invalidSession
    ∧ (∀ (verify : String → Option String) (fresh : String),
        (postMcp verify fresh sessions (some sid) none).1
          = McpResponse.authRequired)
    ∧ (∀ (verify : String → Option String) (fresh h : String),
        takeChars 7 h ≠ "Bearer " →
        (postMcp verify fresh sessions (some sid) (some h)).1
          = McpResponse.authRequired)
    ∧ (∀ (verify : String → Option String) (fresh h : String),
        takeChars 7 h = "Bearer " → verify (dropChars 7 h) = none →
        (postMcp verify fresh sessions (some sid) (some h)).1
          = McpResponse.invalidToken)
    ∧ (∀ (verify : String → Option String) (fresh h uid : String),
        takeChars 7 h = "Bearer " → verify (dropChars 7 h) = some uid →
        (postMcp verify fresh sessions (some sid) (some h)).1
          = McpResponse.handledNewSession fresh uid)
    ∧ (∀ (verify : String → Option String) (fresh : String)
        (authHeader : Option String),
        (postMcp verify fresh sessions (some sid) authHeader).1
          ≠ McpResponse.invalidSession) := by
  refine ⟨?_, ?_, ?_, ?_, ?_, ?_, ?_⟩
  · simp [getMcp, hmiss]
  · simp [deleteMcp, hmiss]
  · intro verify fresh
    simp [postMcp, hmiss]
  · intro verify fresh h hb
    simp [postMcp, hmiss, hb]
  · intro verify fresh h hb hver
    simp [postMcp, hmiss, hb, hver]
  · intro verify fresh h uid hb hver
    simp [postMcp, hmiss, hb, hver]
  · intro verify fresh authHeader
    cases authHeader with
    | none => simp [postMcp, hmiss]
    | some h =>
      by_cases hb : takeChars 7 h = "Bearer "
      · cases hver : verify (dropChars 7 h) with
        | none => simp [postMcp, hmiss, hb, hver]
        | some uid => simp [postMcp, hmiss, hb, hver]
      · simp [postMcp, hmiss, hb]

/-- C1 (witness for the amended theorem): all four POST cases and both
non-POST verbs at a concrete unknown session identifier. -/
theorem c1_unknown_session_behaviour_holds :
    getMcp DocMap.empty (some "never-issued") = McpResponse.invalidSession
    ∧ (deleteMcp DocMap.empty (some "never-issued")).1
        = McpResponse.invalidSession
    ∧ (postMcp (fun _ => none) "f1" DocMap.empty (some "never-issued")
        none).1 = McpResponse.authRequired
    ∧ (postMcp (fun _ => none) "f1" DocMap.empty (some "never-issued")
        (some "Basic abc")).1 = McpResponse.authRequired
    ∧ (postMcp (fun _ => none) "f1" DocMap.empty (some "never-issued")
        (some "Bearer bad")).1 = McpResponse.invalidToken
    ∧ (postMcp (fun _ => some "u1") "f1" DocMap.empty (some "never-issued")
        (some "Bearer tok")).1 = McpResponse.handledNewSession "f1" "u1"
    ∧ (postMcp (fun _ => some "u1") "f1" DocMap.empty (some "never-issued")
        (some "Bearer tok")).1 ≠ McpResponse.invalidSession := by
  have h := c1_unknown_session_behaviour DocMap.empty "never-issued"
    (by decide) (by decide)
  exact ⟨h.1, h.2.1, h.2.2.1 (fun _ => none) "f1",
    h.2.2.2.1 (fun _ => none) "f1" "Basic abc" (by decide),
    h.2.2.2.2.1 (fun _ => none) "f1" "Bearer bad" (by decide) rfl,
    h.2.2.2.2.2.1 (fun _ => some "u1") "f1" "Bearer tok" "u1" (by decide) rfl,
    h.2.2.2.2.2.2 (fun _ => some "u1") "f1" (some "Bearer tok")⟩

/-- C2: the PKCE mismatch path does answer the invalid_grant PKCE error,
but the comparison the source performs is the ordinary early-exit string
comparison, whose number of character comparisons grows with the length of
the matching prefix: against the stored challenge abcd, the computed values
abcX and Xbcd (same length, both mismatches) take 4 and 1 character
comparisons respectively. -/
theorem c2_pkce_compare_not_constant_time :
    (exchangeCode (fun s => s) (fun u => u) "rt1" 0
        { oauthCodes := DocMap.empty.set "c1"
            { userId := "u1", codeChallenge := "abcd",
              codeChallengeMethod := "S256",
              redirectUri := "https://client/cb", scope := "sc",
              clientId := "", expiresAt := 1000, used := false,
              usedAt := none, createdAt := 0 },
          oauthRefreshTokens := DocMap.empty } "c1" "abcX" none).1
      = TokenResult.invalidGrant "PKCE code_verifier validation failed"
    ∧ (exchangeCode (fun s => s) (fun u => u) "rt1" 0
        { oauthCodes := DocMap.empty.set "c1"
            { userId := "u1", codeChallenge := "abcd",
              codeChallengeMethod := "S256",
              redirectUri := "https://client/cb", scope := "sc",
              clientId := "", expiresAt := 1000, used := false,
              usedAt := none, createdAt := 0 },
          oauthRefreshTokens := DocMap.empty } "c1" "Xbcd" none).1
      = TokenResult.invalidGrant "PKCE code_verifier validation failed"
    ∧ earlyExitEqCost "abcX".data "abcd".data = 4
    ∧ earlyExitEqCost "Xbcd".data "abcd".data = 1 :=
  ⟨by decide, by decide, by decide, by decide⟩

/-- C3: a bearer that passes local signed-token verification but whose
principal id does not resolve is NOT answered with the principal-not-found
authentication error: the error thrown for the missing principal is
swallowed by the surrounding catch and verification falls through to the
federated path, which either fails with the generic invalid-token message
or even creates a brand-new principal. -/
theorem c3_local_not_found_falls_through_to_federated :
    authenticateToken (fun t => if t = "jwt-tok" then some "ghost" else none)
      (fun _ => false) (fun _ => none) "jwt-tok"
      = AuthResult.authError "Invalid authentication token"
    ∧ authenticateToken
        (fun t => if t = "jwt-tok" then some "ghost" else none)
        (fun _ => false)
        (fun t => if t = "jwt-tok" then some "fed-user" else none) "jwt-tok"
      = AuthResult.ok "fed-user" true :=
  ⟨by decide, by decide⟩

/-- C4 (counterexample): a stored code whose challenge method is the plain
variant and whose challenge literally equals the verifier is nonetheless
rejected, because the exchange always hashes the verifier (here the
abstract hash prefixes H, mirroring that SHA-256 of a verifier never equals
the verifier itself). -/
theorem c4_plain_method_not_honoured :
    (exchangeCode (fun s => "H" ++ s) (fun u => u) "rt1" 0
        { oauthCodes := DocMap.empty.set "c1"
            { userId := "u1", codeChallenge := "verifier1",
              codeChallengeMethod := "plain",
              redirectUri := "https://client/cb", scope := "sc",
              clientId := "", expiresAt := 1000, used := false,
              usedAt := none, createdAt := 0 },
          oauthRefreshTokens := DocMap.empty } "c1" "verifier1" none).1
      = TokenResult.invalidGrant "PKCE code_verifier validation failed" := by
  decide

/-- C4 (amended): the exchange always compares the hash of the verifier
against the stored challenge; the stored challenge method — quantified
freely here as part of the stored document — is never consulted, so there
is no literal-acceptance branch for the plain variant. -/
theorem c4_hash_always_compared (sha mkJWT : String → String)
    (fresh : String) (now : Nat) (σ : OAuthState) (code verifier : String)
    (ru : Option String) (d : OAuthCodeData) (hc : code ≠ "")
    (hv : verifier ≠ "") (hlook : σ.oauthCodes code = some d)
    (hused : d.used = false) (hexp : ¬ d.expiresAt < now)
    (hru : redirectUriMismatch ru d.redirectUri = false) :
    ((exchangeCode sha mkJWT fresh now σ code verifier ru).1.isSuccess = true
      ↔ sha verifier = d.codeChallenge) := by
  unfold exchangeCode
  rw [if_neg (not_or.mpr ⟨hc, hv⟩), hlook]
  by_cases h : sha verifier = d.codeChallenge
  · simp [hused, hexp, hru, h, TokenResult.isSuccess]
  · simp [hused, hexp, hru, h, TokenResult.isSuccess]

/-- C4 (witness for the amended theorem): with the identity standing in for
the hash and a plain-method document, the exchange succeeds exactly when
the hashed verifier equals the challenge. -/
theorem c4_hash_always_compared_holds :
    ((exchangeCode (fun s => s) (fun u => u) "rt1" 0
        { oauthCodes := DocMap.empty.set "c1"
            { userId := "u1", codeChallenge := "ch",
              codeChallengeMethod := "plain",
              redirectUri := "https://client/cb", scope := "sc",
              clientId := "", expiresAt := 1000, used := false,
              usedAt := none, createdAt := 0 },
          oauthRefreshTokens := DocMap.empty } "c1" "ch" none).1.isSuccess
        = true
      ↔ ("ch" : String) = "ch") :=
  c4_hash_always_compared (fun s => s) (fun u => u) "rt1" 0
    { oauthCodes := DocMap.empty.set "c1"
        { userId := "u1", codeChallenge := "ch",
          codeChallengeMethod := "plain",
          redirectUri := "https://client/cb", scope := "sc",
          clientId := "", expiresAt := 1000, used := false,
          usedAt := none, createdAt := 0 },
      oauthRefreshTokens := DocMap.empty } "c1" "ch" none
    { userId := "u1", codeChallenge := "ch", codeChallengeMethod := "plain",
      redirectUri := "https://client/cb", scope := "sc", clientId := "",
      expiresAt := 1000, used := false, usedAt := none, createdAt := 0 }
    (by decide) (by decide) (by decide) (by decide) (by decide) (by decide)

/-- C5: a first exchange of a stored, unused, unexpired code with a
matching verifier (and no redirect mismatch) succeeds and marks the code
used; after it, every further exchange of the same code — whatever hash,
verifier, redirect uri, clock or freshly drawn token the call carries, as
long as the request is well-formed — answers the invalid_grant reuse
error. -/
theorem c5_code_single_use (sha mkJWT : String → String) (fresh : String)
    (now : Nat) (σ : OAuthState) (code verifier : String)
    (ru : Option String) (d : OAuthCodeData) (hc : code ≠ "")
    (hv : verifier ≠ "") (hlook : σ.oauthCodes code = some d)
    (hused : d.used = false) (hexp : ¬ d.expiresAt < now)
    (hru : redirectUriMismatch ru d.redirectUri = false)
    (hpkce : sha verifier = d.codeChallenge) :
    (exchangeCode sha mkJWT fresh now σ code verifier ru).1
      = TokenResult.success (mkJWT d.userId) "Bearer" 604800 fresh d.scope
    ∧ (exchangeCode sha mkJWT fresh now σ code verifier ru).2.oauthCodes code
      = some { d with used := true, usedAt := some now }
    ∧ ∀ (sha2 mkJWT2 : String → String) (fresh2 : String) (now2 : Nat)
        (verifier2 : String) (ru2 : Option String), verifier2 ≠ "" →
        (exchangeCode sha2 mkJWT2 fresh2 now2
            (exchangeCode sha mkJWT fresh now σ code verifier ru).2
            code verifier2 ru2).1
          = TokenResult.invalidGrant
              "Authorization code has already been used" := by
  have hs := exchangeCode_success_eq sha mkJWT fresh now σ code verifier ru d
    hc hv hlook hused hexp hru hpkce
  refine ⟨by rw [hs], ?_, ?_⟩
  · rw [hs]
    exact DocMap.get_set_same σ.oauthCodes code _
  · intro sha2 mkJWT2 fresh2 now2 verifier2 ru2 hv2
    have hlook2 : (exchangeCode sha mkJWT fresh now σ code verifier ru).2.oauthCodes code
        = some { d with used := true, usedAt := some now } := by
      rw [hs]
      exact DocMap.get_set_same σ.oauthCodes code _
    rw [exchangeCode_of_used sha2 mkJWT2 fresh2 now2 _ code verifier2 ru2
      { d with used := true, usedAt := some now } hc hv2 hlook2 rfl]

/-- C5 (witness). -/
theorem c5_code_single_use_holds :
    (exchangeCode (fun s => s) (fun u => u) "rt1" 5
        { oauthCodes := DocMap.empty.set "c1"
            { userId := "u1", codeChallenge := "verifier1",
              codeChallengeMethod := "S256",
              redirectUri := "https://client/cb", scope := "sc",
              clientId := "", expiresAt := 1000, used := false,
              usedAt := none, createdAt := 0 },
          oauthRefreshTokens := DocMap.empty } "c1" "verifier1" none).1
      = TokenResult.success "u1" "Bearer" 604800 "rt1" "sc" :=
  (c5_code_single_use (fun s => s) (fun u => u) "rt1" 5
    { oauthCodes := DocMap.empty.set "c1"
        { userId := "u1", codeChallenge := "verifier1",
          codeChallengeMethod := "S256",
          redirectUri := "https://client/cb", scope := "sc",
          clientId := "", expiresAt := 1000, used := false,
          usedAt := none, createdAt := 0 },
      oauthRefreshTokens := DocMap.empty } "c1" "verifier1" none
    { userId := "u1", codeChallenge := "verifier1",
      codeChallengeMethod := "S256", redirectUri := "https://client/cb",
      scope := "sc", clientId := "", expiresAt := 1000, used := false,
      usedAt := none, createdAt := 0 }
    (by decide) (by decide) (by decide) (by decide) (by decide) (by decide)
    (by decide)).1

/-- C6 (counterexample): at 16 minutes, a pending authorization created at
time 0 is a minute past the 15-minute TTL — the cleanup sweep run at that
moment would delete it — yet the callback still accepts its state and
issues a code, because the callback never compares the entry's age against
the TTL. -/
theorem c6_stale_pending_still_accepted :
    (completeAuthorization (fun _ => some "u1") "code-1" 960000
        (DocMap.empty.set "s1"
          { codeChallenge := "ch", codeChallengeMethod := "S256",
            redirectUri := "https://client/cb", scope := "sc",
            clientId := "", createdAt := 0 })
        DocMap.empty "grant-1" "s1").1
      = CallbackResult.redirect "https://client/cb" "code-1" "s1"
    ∧ cleanupSweep 960000
        (DocMap.empty.set "s1"
          { codeChallenge := "ch", codeChallengeMethod := "S256",
            redirectUri := "https://client/cb", scope := "sc",
            clientId := "", createdAt := 0 }) "s1" = none :=
  ⟨by decide, by decide⟩

/-- C6 (amended): of the two expiries, only the authorization code's is
enforced at read time — the exchange rejects a code past `expiresAt`
independently of any sweep — while a pending authorization's TTL is
enforced only by the sweep: the callback accepts any entry still present,
with no constraint relating its `createdAt` to the current time. -/
theorem c6_read_time_expiry_only_for_codes (sha mkJWT : String → String)
    (fresh : String) (now : Nat) (σ : OAuthState) (code verifier : String)
    (ru : Option String) (d : OAuthCodeData)
    (resolveGrant : String → Option String) (freshCode : String)
    (now2 : Nat) (pending : DocMap PendingAuth)
    (codes : DocMap OAuthCodeData) (grant state : String) (p : PendingAuth)
    (uid : String) (hc : code ≠ "") (hv : verifier ≠ "")
    (hlook : σ.oauthCodes code = some d) (hused : d.used = false)
    (hexp : d.expiresAt < now) (hg : grant ≠ "") (hs : state ≠ "")
    (hp : pending state = some p) (hr : resolveGrant grant = some uid) :
    (exchangeCode sha mkJWT fresh now σ code verifier ru).1
      = TokenResult.invalidGrant "Authorization code has expired"
    ∧ (completeAuthorization resolveGrant freshCode now2 pending codes
        grant state).1
      = CallbackResult.redirect p.redirectUri freshCode state := by
  constructor
  · rw [exchangeCode_of_expired sha mkJWT fresh now σ code verifier ru d
      hc hv hlook hused hexp]
  · unfold completeAuthorization
    rw [if_neg (not_or.mpr ⟨hg, hs⟩), hp, hr]

/-- C6 (witness for the amended theorem). -/
theorem c6_read_time_expiry_only_for_codes_holds :
    (exchangeCode (fun s => s) (fun u => u) "rt1" 2000
        { oauthCodes := DocMap.empty.set "c1"
            { userId := "u1", codeChallenge := "ch",
              codeChallengeMethod := "S256",
              redirectUri := "https://client/cb", scope := "sc",
              clientId := "", expiresAt := 1000, used := false,
              usedAt := none, createdAt := 0 },
          oauthRefreshTokens := DocMap.empty } "c1" "ch" none).1
      = TokenResult.invalidGrant "Authorization code has expired"
    ∧ (completeAuthorization (fun _ => some "u1") "code-1" 960000
        (DocMap.empty.set "s1"
          { codeChallenge := "ch", codeChallengeMethod := "S256",
            redirectUri := "https://client/cb", scope := "sc",
            clientId := "", createdAt := 0 })
        DocMap.empty "grant-1" "s1").1
      = CallbackResult.redirect "https://client/cb" "code-1" "s1" :=
  c6_read_time_expiry_only_for_codes (fun s => s) (fun u => u) "rt1" 2000
    { oauthCodes := DocMap.empty.set "c1"
        { userId := "u1", codeChallenge := "ch",
          codeChallengeMethod := "S256",
          redirectUri := "https://client/cb", scope := "sc",
          clientId := "", expiresAt := 1000, used := false,
          usedAt := none, createdAt := 0 },
      oauthRefreshTokens := DocMap.empty } "c1" "ch" none
    { userId := "u1", codeChallenge := "ch", codeChallengeMethod := "S256",
      redirectUri := "https://client/cb", scope := "sc", clientId := "",
      expiresAt := 1000, used := false, usedAt := none, createdAt := 0 }
    (fun _ => some "u1") "code-1" 960000
    (DocMap.empty.set "s1"
      { codeChallenge := "ch", codeChallengeMethod := "S256",
        redirectUri := "https://client/cb", scope := "sc",
        clientId := "", createdAt := 0 })
    DocMap.empty "grant-1" "s1"
    { codeChallenge := "ch", codeChallengeMethod := "S256",
      redirectUri := "https://client/cb", scope := "sc",
      clientId := "", createdAt := 0 } "u1"
    (by decide) (by decide) (by decide) (by decide) (by decide) (by decide)
    (by decide) (by decide) (by decide)

/-- C7: a successful refresh of a stored, unrevoked, unexpired token T1
returns the new pair, overwrites T1 as revoked, and writes the rotated-in
token with `previousToken` pointing back at T1; every subsequent refresh
presenting T1 — under any clock and any freshly drawn token — answers the
invalid_grant revocation error, though no client ever revoked T1. -/
theorem c7_refresh_rotation (mkJWT : String → String) (fresh : String)
    (now : Nat) (σ : OAuthState) (t1 : String) (d : RefreshTokenData)
    (ht : t1 ≠ "") (hfresh : fresh ≠ t1)
    (hlook : σ.oauthRefreshTokens t1 = some d) (hrev : d.revoked = false)
    (hexp : ¬ d.expiresAt < now) :
    (refreshGrant mkJWT fresh now σ t1).1
      = TokenResult.success (mkJWT d.userId) "Bearer" 604800 fresh d.scope
    ∧ (refreshGrant mkJWT fresh now σ t1).2.oauthRefreshTokens t1
      = some { d with revoked := true, revokedAt := some now }
    ∧ (refreshGrant mkJWT fresh now σ t1).2.oauthRefreshTokens fresh
      = some { userId := d.userId, scope := d.scope, clientId := d.clientId,
               expiresAt := now + thirtyDaysMs, revoked := false,
               revokedAt := none, createdAt := now,
               previousToken := some t1 }
    ∧ ∀ (mkJWT2 : String → String) (fresh2 : String) (now2 : Nat),
        (refreshGrant mkJWT2 fresh2 now2
            (refreshGrant mkJWT fresh now σ t1).2 t1).1
          = TokenResult.invalidGrant "Refresh token has been revoked" := by
  have hs := refreshGrant_success_eq mkJWT fresh now σ t1 d ht hlook hrev hexp
  have ht1 : (refreshGrant mkJWT fresh now σ t1).2.oauthRefreshTokens t1
      = some { d with revoked := true, revokedAt := some now } := by
    rw [hs]
    show ((σ.oauthRefreshTokens.set t1 _).set fresh _) t1 = _
    rw [DocMap.get_set_ne _ _ (fun he => hfresh he.symm)]
    exact DocMap.get_set_same σ.oauthRefreshTokens t1 _
  refine ⟨by rw [hs], ht1, ?_, ?_⟩
  · rw [hs]
    exact DocMap.get_set_same _ fresh _
  · intro mkJWT2 fresh2 now2
    rw [refreshGrant_of_revoked mkJWT2 fresh2 now2 _ t1
      { d with revoked := true, revokedAt := some now } ht ht1 rfl]

/-- C7 (witness). -/
theorem c7_refresh_rotation_holds :
    (refreshGrant (fun u => u) "t2" 50
        { oauthCodes := DocMap.empty,
          oauthRefreshTokens := DocMap.empty.set "t1"
            { userId := "u1", scope := "sc", clientId := "",
              expiresAt := 1000, revoked := false, revokedAt := none,
              createdAt := 0, previousToken := none } } "t1").1
      = TokenResult.success "u1" "Bearer" 604800 "t2" "sc" :=
  (c7_refresh_rotation (fun u => u) "t2" 50
    { oauthCodes := DocMap.empty,
      oauthRefreshTokens := DocMap.empty.set "t1"
        { userId := "u1", scope := "sc", clientId := "",
          expiresAt := 1000, revoked := false, revokedAt := none,
          createdAt := 0, previousToken := none } } "t1"
    { userId := "u1", scope := "sc", clientId := "", expiresAt := 1000,
      revoked := false, revokedAt := none, createdAt := 0,
      previousToken := none }
    (by decide) (by decide) (by decide) (by decide) (by decide)).1

/-- C8: a well-formed exchange of a stored code whose `expiresAt` lies in
the past answers invalid_grant whatever the verifier hashes to; when the
code is not also marked used, the answer is specifically the expiry error,
which no hypothesis about the verifier or the hash influences — the expiry
check decides before PKCE validation is reached. -/
theorem c8_expired_code_rejected (sha mkJWT : String → String)
    (fresh : String) (now : Nat) (σ : OAuthState) (code verifier : String)
    (ru : Option String) (d : OAuthCodeData) (hc : code ≠ "")
    (hv : verifier ≠ "") (hlook : σ.oauthCodes code = some d)
    (hexp : d.expiresAt < now) :
    (exchangeCode sha mkJWT fresh now σ code verifier ru).1.isInvalidGrant
      = true
    ∧ (d.used = false →
        (exchangeCode sha mkJWT fresh now σ code verifier ru).1
          = TokenResult.invalidGrant "Authorization code has expired") := by
  cases hu : d.used
  · have he := exchangeCode_of_expired sha mkJWT fresh now σ code verifier
      ru d hc hv hlook hu hexp
    exact ⟨by rw [he]; rfl, fun _ => by rw [he]⟩
  · have he := exchangeCode_of_used sha mkJWT fresh now σ code verifier
      ru d hc hv hlook hu
    refine ⟨by rw [he]; rfl, fun hfalse => ?_⟩
    cases hfalse

/-- C8 (witness). -/
theorem c8_expired_code_rejected_holds :
    (exchangeCode (fun s => s) (fun u => u) "rt1" 5000
        { oauthCodes := DocMap.empty.set "c1"
            { userId := "u1", codeChallenge := "ch",
              codeChallengeMethod := "S256",
              redirectUri := "https://client/cb", scope := "sc",
              clientId := "", expiresAt := 1000, used := false,
              usedAt := none, createdAt := 0 },
          oauthRefreshTokens := DocMap.empty }
        "c1" "ch" none).1.isInvalidGrant = true :=
  (c8_expired_code_rejected (fun s => s) (fun u => u) "rt1" 5000
    { oauthCodes := DocMap.empty.set "c1"
        { userId := "u1", codeChallenge := "ch",
          codeChallengeMethod := "S256",
          redirectUri := "https://client/cb", scope := "sc",
          clientId := "", expiresAt := 1000, used := false,
          usedAt := none, createdAt := 0 },
      oauthRefreshTokens := DocMap.empty } "c1" "ch" none
    { userId := "u1", codeChallenge := "ch", codeChallengeMethod := "S256",
      redirectUri := "https://client/cb", scope := "sc", clientId := "",
      expiresAt := 1000, used := false, usedAt := none, createdAt := 0 }
    (by decide) (by decide) (by decide) (by decide)).1

/-- C9: across the four operations that write the persisted stores — the
callback, the authorization_code grant, the refresh_token grant and the
logout batch revocation — a code's `used` flag and a refresh token's
`revoked` flag never transition from true back to false, given that the
randomUUID-drawn keys are fresh (absent from the respective collection). -/
theorem c9_flag_monotonic :
    (∀ (resolveGrant : String → Option String) (freshCode : String)
       (now : Nat) (pending : DocMap PendingAuth)
       (codes : DocMap OAuthCodeData) (grant state : String),
       codes freshCode = none →
       UsedMonotone codes
         (completeAuthorization resolveGrant freshCode now pending codes
           grant state).2.2)
    ∧ (∀ (sha mkJWT : String → String) (fresh : String) (now : Nat)
        (σ : OAuthState) (code verifier : String) (ru : Option String),
        UsedMonotone σ.oauthCodes
          (exchangeCode sha mkJWT fresh now σ code verifier ru).2.oauthCodes
        ∧ (σ.oauthRefreshTokens fresh = none →
           RevokedMonotone σ.oauthRefreshTokens
             (exchangeCode sha mkJWT fresh now σ code verifier
               ru).2.oauthRefreshTokens))
    ∧ (∀ (mkJWT : String → String) (fresh : String) (now : Nat)
        (σ : OAuthState) (t : String), σ.oauthRefreshTokens fresh = none →
        RevokedMonotone σ.oauthRefreshTokens
          (refreshGrant mkJWT fresh now σ t).2.oauthRefreshTokens)
    ∧ (∀ (now : Nat) (tokens : DocMap RefreshTokenData) (uid : String),
        RevokedMonotone tokens (revokeAll now tokens uid)) := by
  refine ⟨?_, ?_, ?_, ?_⟩
  · intro rg fc now pending codes g s hfresh
    rcases completeAuthorization_codes_cases rg fc now pending codes g s
      with h | ⟨nc, _, h⟩
    · rw [h]; exact usedMonotone_refl codes
    · rw [h]; exact usedMonotone_set_of_none codes fc nc hfresh
  · intro sha mkJWT fresh now σ code verifier ru
    constructor
    · rcases exchangeCode_codes_cases sha mkJWT fresh now σ code verifier ru
        with h | ⟨nc, hnc, h⟩
      · rw [h]; exact usedMonotone_refl _
      · rw [h]; exact usedMonotone_set_of_used _ code nc hnc
    · intro hfresh
      rcases exchangeCode_tokens_cases sha mkJWT fresh now σ code verifier ru
        with h | ⟨nt, h⟩
      · rw [h]; exact revokedMonotone_refl _
      · rw [h]; exact revokedMonotone_set_of_none _ fresh nt hfresh
  · intro mkJWT fresh now σ t hfresh
    rcases refreshGrant_tokens_cases mkJWT fresh now σ t
      with h | ⟨old, hold, h⟩
    · rw [h]; exact revokedMonotone_refl _
    · rw [h]
      refine revokedMonotone_trans
        (revokedMonotone_set_of_revoked _ t
          { old with revoked := true, revokedAt := some now } rfl) ?_
      refine revokedMonotone_set_of_none _ fresh _ ?_
      have hne : fresh ≠ t := by
        intro he; rw [he, hold] at hfresh; cases hfresh
      rw [DocMap.get_set_ne _ _ hne]
      exact hfresh
  · intro now tokens uid k d hk hd
    refine ⟨d, ?_, hd⟩
    simp [revokeAll, hk, hd]

/-- C9 (witness). -/
theorem c9_flag_monotonic_holds :
    UsedMonotone DocMap.empty
      (completeAuthorization (fun _ => some "u") "c" 0 DocMap.empty
        DocMap.empty "g" "s").2.2
    ∧ RevokedMonotone DocMap.empty
        (refreshGrant (fun u => u) "t2" 0
          { oauthCodes := DocMap.empty, oauthRefreshTokens := DocMap.empty }
          "t1").2.oauthRefreshTokens
    ∧ RevokedMonotone DocMap.empty
        (exchangeCode (fun s => s) (fun u => u) "rt" 0
          { oauthCodes := DocMap.empty, oauthRefreshTokens := DocMap.empty }
          "c" "v" none).2.oauthRefreshTokens
    ∧ RevokedMonotone DocMap.empty (revokeAll 0 DocMap.empty "u") :=
  ⟨c9_flag_monotonic.1 (fun _ => some "u") "c" 0 DocMap.empty DocMap.empty
      "g" "s" rfl,
   c9_flag_monotonic.2.2.1 (fun u => u) "t2" 0
      { oauthCodes := DocMap.empty, oauthRefreshTokens := DocMap.empty }
      "t1" rfl,
   (c9_flag_monotonic.2.1 (fun s => s) (fun u => u) "rt" 0
      { oauthCodes := DocMap.empty, oauthRefreshTokens := DocMap.empty }
      "c" "v" none).2 rfl,
   c9_flag_monotonic.2.2.2 0 DocMap.empty "u"⟩

/-- C10: a failing exchange leaves both persisted collections exactly as
they were — in particular a redirect-mismatch or PKCE-mismatch failure does
not mark the code used — so a later well-formed exchange of the same code
with correct inputs before its expiry still succeeds. -/
theorem c10_failed_exchange_preserves_state (sha1 mkJWT1 : String → String)
    (fresh1 : String) (now1 : Nat) (sha2 mkJWT2 : String → String)
    (fresh2 : String) (now2 : Nat) (σ : OAuthState) (code v1 v2 : String)
    (ru1 ru2 : Option String) (d : OAuthCodeData)
    (hfail : (exchangeCode sha1 mkJWT1 fresh1 now1 σ code
        v1 ru1).1.isSuccess = false)
    (hc : code ≠ "") (hv2 : v2 ≠ "") (hlook : σ.oauthCodes code = some d)
    (hused : d.used = false) (hexp : ¬ d.expiresAt < now2)
    (hru : redirectUriMismatch ru2 d.redirectUri = false)
    (hpkce : sha2 v2 = d.codeChallenge) :
    (exchangeCode sha1 mkJWT1 fresh1 now1 σ code v1 ru1).2 = σ
    ∧ (exchangeCode sha2 mkJWT2 fresh2 now2
        (exchangeCode sha1 mkJWT1 fresh1 now1 σ code v1 ru1).2
        code v2 ru2).1
      = TokenResult.success (mkJWT2 d.userId) "Bearer" 604800 fresh2
          d.scope := by
  have hstate : (exchangeCode sha1 mkJWT1 fresh1 now1 σ code v1 ru1).2 = σ := by
    rcases exchangeCode_success_or_unchanged sha1 mkJWT1 fresh1 now1 σ code
      v1 ru1 with h | h
    · rw [h] at hfail; cases hfail
    · exact h
  refine ⟨hstate, ?_⟩
  rw [hstate, exchangeCode_success_eq sha2 mkJWT2 fresh2 now2 σ code v2 ru2
    d hc hv2 hlook hused hexp hru hpkce]

/-- C10 (witness): a PKCE-mismatch failure, then a successful retry of the
same code with the correct verifier. -/
theorem c10_failed_exchange_preserves_state_holds :
    (exchangeCode (fun s => s) (fun u => u) "rt1" 0
        { oauthCodes := DocMap.empty.set "c1"
            { userId := "u1", codeChallenge := "ch",
              codeChallengeMethod := "S256",
              redirectUri := "https://client/cb", scope := "sc",
              clientId := "", expiresAt := 1000, used := false,
              usedAt := none, createdAt := 0 },
          oauthRefreshTokens := DocMap.empty } "c1" "wrong" none).2
      = { oauthCodes := DocMap.empty.set "c1"
            { userId := "u1", codeChallenge := "ch",
              codeChallengeMethod := "S256",
              redirectUri := "https://client/cb", scope := "sc",
              clientId := "", expiresAt := 1000, used := false,
              usedAt := none, createdAt := 0 },
          oauthRefreshTokens := DocMap.empty }
    ∧ (exchangeCode (fun s => s) (fun u => u) "rt2" 0
        (exchangeCode (fun s => s) (fun u => u) "rt1" 0
          { oauthCodes := DocMap.empty.set "c1"
              { userId := "u1", codeChallenge := "ch",
                codeChallengeMethod := "S256",
                redirectUri := "https://client/cb", scope := "sc",
                clientId := "", expiresAt := 1000, used := false,
                usedAt := none, createdAt := 0 },
            oauthRefreshTokens := DocMap.empty } "c1" "wrong" none).2
        "c1" "ch" none).1
      = TokenResult.success "u1" "Bearer" 604800 "rt2" "sc" :=
  c10_failed_exchange_preserves_state (fun s => s) (fun u => u) "rt1" 0
    (fun s => s) (fun u => u) "rt2" 0
    { oauthCodes := DocMap.empty.set "c1"
        { userId := "u1", codeChallenge := "ch",
          codeChallengeMethod := "S256",
          redirectUri := "https://client/cb", scope := "sc",
          clientId := "", expiresAt := 1000, used := false,
          usedAt := none, createdAt := 0 },
      oauthRefreshTokens := DocMap.empty } "c1" "wrong" "ch" none none
    { userId := "u1", codeChallenge := "ch", codeChallengeMethod := "S256",
      redirectUri := "https://client/cb", scope := "sc", clientId := "",
      expiresAt := 1000, used := false, usedAt := none, createdAt := 0 }
    (by decide) (by decide) (by decide) (by decide) (by decide) (by decide)
    (by decide) (by decide)

end ProtimeMcp
